import Mathlib

/-!
Shallow embedding of src/UT1LongLatphi.py.

The Python module computes, from a civil UT1 timestamp string and a geographic
location, the Earth Rotation Angle (ERA), the equatorial-plane projection angle
of the location, and their sum modulo one full turn.  Python floats are embedded
as exact numbers: every quantity the source computes with rational operations
(Julian Date, day fraction, the fractional-revolution value f) lives in ℚ, and
only the final angles, which involve π and trigonometric functions, live in ℝ.
Python `//` on integers is `Int.fdiv` (floor division), `int()` applied to a
float truncates toward zero, and `%` on floats is floor-modulo.
-/

namespace UT1LongLatphi

/-- Python floor-modulo on floats, embedded over ℝ: `a % b = a - b * floor (a / b)`. -/
noncomputable def pymod (a b : ℝ) : ℝ := a - b * ⌊a / b⌋

/-- Python `int()` applied to a (here: exact rational) float value: truncation
toward zero, i.e. floor for nonnegative arguments and ceiling for negative ones. -/
def pyint (q : ℚ) : ℤ := if 0 ≤ q then ⌊q⌋ else ⌈q⌉

/-- Python `math.atan2 y x` over exact reals: the argument of the complex number
`x + y*I`, valued in (-π, π] with `atan2 0 0 = 0`, which is the C/Python
convention at the origin for exact (unsigned) zeros. -/
noncomputable def atan2 (y x : ℝ) : ℝ := Complex.arg ((x : ℝ) + (y : ℝ) * Complex.I)

/-- Python `math.radians`: degrees to radians. -/
noncomputable def radians (d : ℝ) : ℝ := d * (Real.pi / 180)

/-- The fields of a parsed `datetime.datetime`: the civil calendar/time fields
plus the timezone offset (in seconds east of UTC) when the string carried one.
The pipeline only ever reads the civil fields. -/
structure CivilTimestamp where
  year : ℤ
  month : ℤ
  day : ℤ
  hour : ℤ
  minute : ℤ
  second : ℤ
  microsecond : ℤ
  tzoffset : Option ℤ
deriving DecidableEq

/-- Line 51 of the source: `day_frac = (hour + minute/60 + (second + microsecond*1e-6)/3600)/24`. -/
def day_fraction (t : CivilTimestamp) : ℚ :=
  ((t.hour : ℚ) + (t.minute : ℚ) / 60 + ((t.second : ℚ) + (t.microsecond : ℚ) * (1 / 1000000)) / 3600) / 24

/-- Lines 53-55: the working year of the Meeus algorithm (January and February
count as months 13 and 14 of the previous year). -/
def jd_working_year (t : CivilTimestamp) : ℤ :=
  if t.month ≤ 2 then t.year - 1 else t.year

/-- Lines 53-55: the working month of the Meeus algorithm. -/
def jd_working_month (t : CivilTimestamp) : ℤ :=
  if t.month ≤ 2 then t.month + 12 else t.month

/-- Line 57: `A = year // 100` (Python floor division). -/
def jd_A (t : CivilTimestamp) : ℤ := Int.fdiv (jd_working_year t) 100

/-- Line 58: `B = 2 - A + A // 4` (Gregorian correction). -/
def jd_B (t : CivilTimestamp) : ℤ := 2 - jd_A t + Int.fdiv (jd_A t) 4

/-- Lines 41-61, `jd_from_datetime`: Meeus Julian Date with day fraction.  The
two product terms go through Python `int()`, i.e. truncation toward zero. -/
def jd_from_datetime (t : CivilTimestamp) : ℚ :=
  (pyint ((365.25 : ℚ) * ((jd_working_year t : ℚ) + 4716)) : ℚ)
    + (pyint ((30.6001 : ℚ) * ((jd_working_month t : ℚ) + 1)) : ℚ)
    + (t.day : ℚ) + (jd_B t : ℚ) - 1524.5 + day_fraction t

/-- Line 82: the fractional-revolution value
`f = 0.7790572732640 + 0.00273781191135448 * D + day_fraction` with
`D = jd - 2451545.0`.  (The source also computes an unused local `frac_day`
from the JD itself on line 76; it is dead code and not modelled.) -/
def era_f (t : CivilTimestamp) : ℚ :=
  0.7790572732640 + 0.00273781191135448 * (jd_from_datetime t - 2451545.0) + day_fraction t

/-- Line 84: `f_frac = f - floor f`. -/
def era_rev_frac (t : CivilTimestamp) : ℚ := era_f t - ⌊era_f t⌋

/-- Lines 85-88: `era = 2π * f_frac` followed by the defensive `era % 2π`,
applied to the civil fields of an already-parsed timestamp. -/
noncomputable def era_from_ut1_dt (t : CivilTimestamp) : ℝ :=
  pymod (2 * Real.pi * (era_rev_frac t : ℝ)) (2 * Real.pi)

/-- Lines 111-112: map a value of `atan2` from (-π, π] into [0, 2π) by adding
2π to negative values. -/
noncomputable def norm0to2pi (a : ℝ) : ℝ := if a < 0 then a + 2 * Real.pi else a

/-- Lines 91-113, `proj_angle_lonlat`: the polar angle of the equatorial-plane
projection of the unit vector toward (lon, lat), in [0, 2π).  The source binds
`x = cos lat * cos lon` and `y = cos lat * sin lon` and returns
`atan2 y x` shifted into [0, 2π).  This exact-real rendering is faithful away
from the poles; at |lat| = 90 it diverges from the source, whose IEEE-double
`math.cos(math.radians(90))` is 6.123233995736766e-17 > 0 rather than 0, so
the source returns a longitude-dependent angle there (see the C1 theorem,
which evaluates the formula with such a positive perturbed cosine). -/
noncomputable def proj_angle_lonlat (lon_deg lat_deg : ℝ) : ℝ :=
  norm0to2pi (atan2 (Real.cos (radians lat_deg) * Real.sin (radians lon_deg))
                    (Real.cos (radians lat_deg) * Real.cos (radians lon_deg)))

/-- Lines 116-125, `total_angle_mod` applied to an already-parsed timestamp:
`s_mod = (era + proj) % 2π`, returned as
`(s_mod, degrees s_mod, era, proj)` where `math.degrees x = x * (180/π)`.
The source binds `s_mod` once; it is written out twice here. -/
noncomputable def total_angle_mod_dt (t : CivilTimestamp) (lon_deg lat_deg : ℝ) : ℝ × ℝ × ℝ × ℝ :=
  (pymod (era_from_ut1_dt t + proj_angle_lonlat lon_deg lat_deg) (2 * Real.pi),
   pymod (era_from_ut1_dt t + proj_angle_lonlat lon_deg lat_deg) (2 * Real.pi) * (180 / Real.pi),
   era_from_ut1_dt t,
   proj_angle_lonlat lon_deg lat_deg)

/-! ### The timestamp reader, lines 21-39 (`parse_iso_to_datetime`)

The source strips whitespace, strips one trailing literal Z, tries
`datetime.fromisoformat`, and falls back to
`datetime.strptime(s, "%Y-%m-%dT%H:%M:%S")`, raising a single ValueError when
both fail.  `fromisoformat` is the standard library; it is embedded below
following its documented grammar `YYYY-MM-DD[*HH[:MM[:SS[.fff[fff]]]]]`
followed by an optional `±HH:MM[:SS[.ffffff]]` UTC offset, where `*` is an
arbitrary single separator character, with the field-range validation the
`datetime` constructor performs (year 1-9999, month 1-12, day within the
month, hour ≤ 23, minute ≤ 59, second ≤ 59, offset magnitude under 24 hours).
`strptime` with the fixed format accepts a 4-digit year and 1- or 2-digit
month/day/hour/minute/second fields separated by the literal characters,
again validated by the `datetime` constructor. -/

/-- Numeric value of a list of decimal digit characters. -/
def digitsToNat (l : List Char) : ℕ := l.foldl (fun a c => 10 * a + (c.toNat - 48)) 0

/-- Read exactly `n` decimal digits from the front of `l`. -/
def readExact (n : ℕ) (l : List Char) : Option (ℕ × List Char) :=
  if (l.take n).length = n ∧ (l.take n).all Char.isDigit = true then
    some (digitsToNat (l.take n), l.drop n)
  else none

/-- Read one or two decimal digits from the front of `l` (the flexible-width
numeric fields of `strptime`); two digits are consumed when available. -/
def read1or2 (l : List Char) : Option (ℕ × List Char) :=
  match l with
  | [] => none
  | c1 :: rest =>
    if c1.isDigit then
      match rest with
      | c2 :: rest2 =>
        if c2.isDigit then some (10 * (c1.toNat - 48) + (c2.toNat - 48), rest2)
        else some (c1.toNat - 48, rest)
      | [] => some (c1.toNat - 48, [])
    else none

/-- Gregorian leap-year rule used by `datetime` (proleptic Gregorian calendar). -/
def isLeapYear (y : ℤ) : Bool := y % 4 == 0 && (y % 100 != 0 || y % 400 == 0)

/-- Length of a month in the proleptic Gregorian calendar. -/
def daysInMonth (y m : ℤ) : ℤ :=
  if m = 2 then (if isLeapYear y then 29 else 28)
  else if m = 4 ∨ m = 6 ∨ m = 9 ∨ m = 11 then 30 else 31

/-- Field validation performed by the `datetime.date` constructor. -/
def validDate (y mo d : ℕ) : Prop :=
  1 ≤ y ∧ y ≤ 9999 ∧ 1 ≤ mo ∧ mo ≤ 12 ∧ 1 ≤ d ∧ (d : ℤ) ≤ daysInMonth (y : ℤ) (mo : ℤ)

instance (y mo d : ℕ) : Decidable (validDate y mo d) := by
  unfold validDate; infer_instance

/-- Field validation performed by the `datetime.time` constructor. -/
def validTime (h mi s : ℕ) : Prop := h ≤ 23 ∧ mi ≤ 59 ∧ s ≤ 59

instance (h mi s : ℕ) : Decidable (validTime h mi s) := by
  unfold validTime; infer_instance

/-- Fractional-second digits of `fromisoformat`: exactly six digits
(microseconds) or exactly three digits (milliseconds). -/
def parseFrac (l : List Char) : Option (ℕ × List Char) :=
  match readExact 6 l with
  | some (f, r) => some (f, r)
  | none =>
    match readExact 3 l with
    | some (f, r) => some (1000 * f, r)
    | none => none

/-- Time-of-day part of `fromisoformat`: `HH[:MM[:SS[.fff[fff]]]]`, returning
(hour, minute, second, microsecond, unconsumed rest). -/
def parseHMS (l : List Char) : Option (ℕ × ℕ × ℕ × ℕ × List Char) :=
  match readExact 2 l with
  | none => none
  | some (h, r1) =>
    match r1 with
    | ':' :: r2 =>
      match readExact 2 r2 with
      | none => none
      | some (mi, r3) =>
        match r3 with
        | ':' :: r4 =>
          match readExact 2 r4 with
          | none => none
          | some (s, r5) =>
            match r5 with
            | '.' :: r6 =>
              match parseFrac r6 with
              | none => none
              | some (us, r7) => some (h, mi, s, us, r7)
            | _ => some (h, mi, s, 0, r5)
        | _ => some (h, mi, 0, 0, r3)
    | _ => some (h, 0, 0, 0, r1)

/-- UTC-offset tail of `fromisoformat` after the sign: `HH:MM[:SS[.ffffff]]`,
consuming the whole rest of the string and returning the magnitude in whole
seconds (the sub-second part of an offset is parsed and dropped). -/
def parseTzTail (r : List Char) : Option ℕ :=
  match readExact 2 r with
  | some (oh, ':' :: r2) =>
    match readExact 2 r2 with
    | some (om, r3) =>
      match r3 with
      | [] => some (3600 * oh + 60 * om)
      | ':' :: r4 =>
        match readExact 2 r4 with
        | some (os, r5) =>
          match r5 with
          | [] => some (3600 * oh + 60 * om + os)
          | '.' :: r6 =>
            match readExact 6 r6 with
            | some (_, []) => some (3600 * oh + 60 * om + os)
            | _ => none
          | _ => none
        | _ => none
      | _ => none
    | _ => none
  | _ => none

/-- The standard library `datetime.fromisoformat` on a list of characters. -/
def fromisoformat (l : List Char) : Option CivilTimestamp :=
  match readExact 4 l with
  | some (y, '-' :: r1) =>
    match readExact 2 r1 with
    | some (mo, '-' :: r2) =>
      match readExact 2 r2 with
      | some (d, r3) =>
        match r3 with
        | [] =>
          if validDate y mo d then some ⟨(y : ℤ), (mo : ℤ), (d : ℤ), 0, 0, 0, 0, none⟩
          else none
        | _ :: r4 =>
          match parseHMS r4 with
          | none => none
          | some (h, mi, s, us, r5) =>
            if validDate y mo d ∧ validTime h mi s then
              match r5 with
              | [] => some ⟨(y : ℤ), (mo : ℤ), (d : ℤ), (h : ℤ), (mi : ℤ), (s : ℤ), (us : ℤ), none⟩
              | '+' :: r6 =>
                match parseTzTail r6 with
                | some secs =>
                  if secs < 86400 then
                    some ⟨(y : ℤ), (mo : ℤ), (d : ℤ), (h : ℤ), (mi : ℤ), (s : ℤ), (us : ℤ), some (secs : ℤ)⟩
                  else none
                | none => none
              | '-' :: r6 =>
                match parseTzTail r6 with
                | some secs =>
                  if secs < 86400 then
                    some ⟨(y : ℤ), (mo : ℤ), (d : ℤ), (h : ℤ), (mi : ℤ), (s : ℤ), (us : ℤ), some (-(secs : ℤ))⟩
                  else none
                | none => none
              | _ => none
            else none
      | none => none
    | _ => none
  | _ => none

/-- The fallback `datetime.strptime(s, "%Y-%m-%dT%H:%M:%S")`: 4-digit year,
flexible 1- or 2-digit numeric fields, literal separators, full match. -/
def strptimeYmdHMS (l : List Char) : Option CivilTimestamp :=
  match readExact 4 l with
  | some (y, '-' :: r1) =>
    match read1or2 r1 with
    | some (mo, '-' :: r2) =>
      match read1or2 r2 with
      | some (d, 'T' :: r3) =>
        match read1or2 r3 with
        | some (h, ':' :: r4) =>
          match read1or2 r4 with
          | some (mi, ':' :: r5) =>
            match read1or2 r5 with
            | some (s, []) =>
              if validDate y mo d ∧ validTime h mi s then
                some ⟨(y : ℤ), (mo : ℤ), (d : ℤ), (h : ℤ), (mi : ℤ), (s : ℤ), 0, none⟩
              else none
            | _ => none
          | _ => none
        | _ => none
      | _ => none
    | _ => none
  | _ => none

/-- Characters removed by Python `str.strip()` (the ASCII whitespace subset). -/
def isPySpace (c : Char) : Bool :=
  c == ' ' || c == '\t' || c == '\n' || c == '\r' || c == '\x0b' || c == '\x0c'

/-- Python `s.strip()`: drop whitespace from both ends. -/
def pyStrip (l : List Char) : List Char :=
  ((l.dropWhile isPySpace).reverse.dropWhile isPySpace).reverse

/-- Lines 27-28: drop one trailing literal Z when present. -/
def stripZ (l : List Char) : List Char :=
  match l.getLast? with
  | some 'Z' => l.dropLast
  | _ => l

/-- Lines 21-39, `parse_iso_to_datetime`: strip, drop a trailing Z, try
`fromisoformat`, fall back to the fixed `strptime` format; `none` is the single
ValueError the source raises when both attempts fail. -/
def parse_iso_to_datetime (s : List Char) : Option CivilTimestamp :=
  match fromisoformat (stripZ (pyStrip s)) with
  | some dt => some dt
  | none => strptimeYmdHMS (stripZ (pyStrip s))

/-- Lines 64-88, `era_from_ut1_iso` on the input string: parse, then compute
the ERA from the civil fields; `none` exactly when parsing fails. -/
noncomputable def era_from_ut1_iso (s : List Char) : Option ℝ :=
  (parse_iso_to_datetime s).map era_from_ut1_dt

/-- Lines 116-125, `total_angle_mod` on the input string. -/
noncomputable def total_angle_mod (s : List Char) (lon_deg lat_deg : ℝ) : Option (ℝ × ℝ × ℝ × ℝ) :=
  (parse_iso_to_datetime s).map (fun t => total_angle_mod_dt t lon_deg lat_deg)

/-- Follows the words of the spec and of claim C9, not the source (refinement
comparison): an input matches the claimed accepted layouts when, after the
whitespace strip and the optional trailing-Z strip, it has the shape
`YYYY-MM-DDTHH:MM:SS` optionally followed by a dot and at least one
fractional-second digit. -/
def specDTCore (l : List Char) : Bool :=
  match readExact 4 l with
  | some (_, '-' :: r1) =>
    match readExact 2 r1 with
    | some (_, '-' :: r2) =>
      match readExact 2 r2 with
      | some (_, 'T' :: r3) =>
        match readExact 2 r3 with
        | some (_, ':' :: r4) =>
          match readExact 2 r4 with
          | some (_, ':' :: r5) =>
            match readExact 2 r5 with
            | some (_, []) => true
            | some (_, '.' :: r6) => !r6.isEmpty && r6.all Char.isDigit
            | _ => false
          | _ => false
        | _ => false
      | _ => false
    | _ => false
  | _ => false

/-- Follows the words of the spec and of claim C9, not the source: the layout
predicate of `specDTCore` applied after the whitespace strip and the optional
trailing-Z strip. -/
def specLayoutAccepts (s : List Char) : Bool := specDTCore (stripZ (pyStrip s))

/-- Modelled from the spec, section 4.2 (refinement comparison for claim C6):
the Meeus formula with floor (truncate-toward-negative-infinity) semantics for
all four integer operations, `JD = floor (365.25 * (wy + 4716)) +
floor (30.6001 * (wm + 1)) + day + B - 1524.5 + day_frac`. -/
def jd_meeus (t : CivilTimestamp) : ℚ :=
  ((⌊(365.25 : ℚ) * ((jd_working_year t : ℚ) + 4716)⌋ : ℤ) : ℚ)
    + ((⌊(30.6001 : ℚ) * ((jd_working_month t : ℚ) + 1)⌋ : ℤ) : ℚ)
    + (t.day : ℚ) + (jd_B t : ℚ) - 1524.5 + day_fraction t

/-! ### Helper lemmas -/

theorem two_pi_pos : 0 < 2 * Real.pi := by positivity

theorem pymod_nonneg (a : ℝ) {b : ℝ} (hb : 0 < b) : 0 ≤ pymod a b := by
  unfold pymod
  have h1 : ((⌊a / b⌋ : ℤ) : ℝ) ≤ a / b := Int.floor_le _
  have h2 : b * ((⌊a / b⌋ : ℤ) : ℝ) ≤ b * (a / b) := mul_le_mul_of_nonneg_left h1 hb.le
  have h3 : b * (a / b) = a := by field_simp
  linarith

theorem pymod_lt (a : ℝ) {b : ℝ} (hb : 0 < b) : pymod a b < b := by
  unfold pymod
  have h1 : a / b < ((⌊a / b⌋ : ℤ) : ℝ) + 1 := Int.lt_floor_add_one _
  have h2 : b * (a / b) < b * (((⌊a / b⌋ : ℤ) : ℝ) + 1) := by
    exact mul_lt_mul_of_pos_left h1 hb
  have h3 : b * (a / b) = a := by field_simp
  nlinarith

theorem pymod_eq_self {a b : ℝ} (h0 : 0 ≤ a) (hab : a < b) : pymod a b = a := by
  have hb : 0 < b := lt_of_le_of_lt h0 hab
  unfold pymod
  have hfl : ⌊a / b⌋ = 0 := by
    rw [Int.floor_eq_zero_iff]
    exact ⟨div_nonneg h0 hb.le, (div_lt_one hb).mpr hab⟩
  rw [hfl]
  simp

theorem era_rev_frac_nonneg (t : CivilTimestamp) : 0 ≤ era_rev_frac t := by
  unfold era_rev_frac
  linarith [Int.floor_le (era_f t)]

theorem era_rev_frac_lt_one (t : CivilTimestamp) : era_rev_frac t < 1 := by
  unfold era_rev_frac
  linarith [Int.lt_floor_add_one (era_f t)]

theorem era_from_ut1_dt_eq (t : CivilTimestamp) :
    era_from_ut1_dt t = 2 * Real.pi * ((era_rev_frac t : ℚ) : ℝ) := by
  unfold era_from_ut1_dt
  apply pymod_eq_self
  · have h : (0 : ℝ) ≤ ((era_rev_frac t : ℚ) : ℝ) := by exact_mod_cast era_rev_frac_nonneg t
    have := Real.pi_pos
    nlinarith
  · have h : ((era_rev_frac t : ℚ) : ℝ) < 1 := by exact_mod_cast era_rev_frac_lt_one t
    have := Real.pi_pos
    nlinarith

theorem era_from_ut1_dt_nonneg (t : CivilTimestamp) : 0 ≤ era_from_ut1_dt t :=
  pymod_nonneg _ two_pi_pos

theorem era_from_ut1_dt_lt (t : CivilTimestamp) : era_from_ut1_dt t < 2 * Real.pi :=
  pymod_lt _ two_pi_pos

theorem norm0to2pi_range {a : ℝ} (h1 : -Real.pi < a) (h2 : a ≤ Real.pi) :
    0 ≤ norm0to2pi a ∧ norm0to2pi a < 2 * Real.pi := by
  unfold norm0to2pi
  have hp := Real.pi_pos
  split_ifs with h
  · exact ⟨by linarith, by linarith⟩
  · exact ⟨by linarith [not_lt.mp h], by linarith⟩

theorem proj_angle_lonlat_range (lon lat : ℝ) :
    0 ≤ proj_angle_lonlat lon lat ∧ proj_angle_lonlat lon lat < 2 * Real.pi := by
  unfold proj_angle_lonlat
  exact norm0to2pi_range (Complex.neg_pi_lt_arg _) (Complex.arg_le_pi _)

theorem atan2_scale {y x : ℝ} {c : ℝ} (hc : 0 < c) : atan2 (c * y) (c * x) = atan2 y x := by
  unfold atan2
  have h : ((c * x : ℝ) : ℂ) + ((c * y : ℝ) : ℂ) * Complex.I
      = (c : ℝ) * (((x : ℝ) : ℂ) + ((y : ℝ) : ℂ) * Complex.I) := by
    push_cast
    ring
  rw [h, Complex.arg_real_mul _ hc]

theorem coslat_pos {lat : ℝ} (h : |lat| < 90) : 0 < Real.cos (radians lat) := by
  unfold radians
  apply Real.cos_pos_of_mem_Ioo
  have hp := Real.pi_pos
  rw [abs_lt] at h
  rw [Set.mem_Ioo]
  constructor
  · have h1 : (0 : ℝ) < (lat + 90) * (Real.pi / 180) :=
      mul_pos (by linarith) (by positivity)
    nlinarith
  · have h1 : (0 : ℝ) < (90 - lat) * (Real.pi / 180) :=
      mul_pos (by linarith) (by positivity)
    nlinarith

theorem proj_lat_indep {lon l1 l2 : ℝ} (h1 : |l1| < 90) (h2 : |l2| < 90) :
    proj_angle_lonlat lon l1 = proj_angle_lonlat lon l2 := by
  unfold proj_angle_lonlat
  rw [atan2_scale (coslat_pos h1), atan2_scale (coslat_pos h2)]

theorem pyint_eq_floor {q : ℚ} (h : 0 ≤ q) : pyint q = ⌊q⌋ := by
  unfold pyint
  rw [if_pos h]

theorem pyint_eval_nonneg {q : ℚ} {n : ℤ} (h : 0 ≤ n) (h1 : (n : ℚ) ≤ q)
    (h2 : q < (n : ℚ) + 1) : pyint q = n := by
  rw [pyint_eq_floor (le_trans (by exact_mod_cast h) h1), Int.floor_eq_iff]
  exact ⟨h1, h2⟩

theorem pyint_eval_neg {q : ℚ} {n : ℤ} (h : q < 0) (h1 : (n : ℚ) - 1 < q)
    (h2 : q ≤ (n : ℚ)) : pyint q = n := by
  unfold pyint
  rw [if_neg (not_le.mpr h), Int.ceil_eq_iff]
  exact ⟨h1, h2⟩

theorem df_t0_eval : day_fraction ⟨2000, 1, 1, 12, 0, 0, 0, none⟩ = 1 / 2 := by
  unfold day_fraction
  norm_num

theorem df_t1_eval : day_fraction ⟨2000, 1, 2, 12, 0, 0, 0, none⟩ = 1 / 2 := by
  unfold day_fraction
  norm_num

theorem jd_t0_eval : jd_from_datetime ⟨2000, 1, 1, 12, 0, 0, 0, none⟩ = 2451545 := by
  unfold jd_from_datetime
  rw [show jd_working_year ⟨2000, 1, 1, 12, 0, 0, 0, none⟩ = 1999 from by decide,
    show jd_working_month ⟨2000, 1, 1, 12, 0, 0, 0, none⟩ = 13 from by decide,
    show jd_B ⟨2000, 1, 1, 12, 0, 0, 0, none⟩ = -13 from by decide,
    pyint_eval_nonneg (n := 2452653) (by norm_num) (by push_cast; norm_num)
      (by push_cast; norm_num),
    pyint_eval_nonneg (n := 428) (by norm_num) (by push_cast; norm_num)
      (by push_cast; norm_num), df_t0_eval]
  push_cast
  norm_num

theorem jd_t1_eval : jd_from_datetime ⟨2000, 1, 2, 12, 0, 0, 0, none⟩ = 2451546 := by
  unfold jd_from_datetime
  rw [show jd_working_year ⟨2000, 1, 2, 12, 0, 0, 0, none⟩ = 1999 from by decide,
    show jd_working_month ⟨2000, 1, 2, 12, 0, 0, 0, none⟩ = 13 from by decide,
    show jd_B ⟨2000, 1, 2, 12, 0, 0, 0, none⟩ = -13 from by decide,
    pyint_eval_nonneg (n := 2452653) (by norm_num) (by push_cast; norm_num)
      (by push_cast; norm_num),
    pyint_eval_nonneg (n := 428) (by norm_num) (by push_cast; norm_num)
      (by push_cast; norm_num), df_t1_eval]
  push_cast
  norm_num

theorem era_f_t0_eval : era_f ⟨2000, 1, 1, 12, 0, 0, 0, none⟩ = 1.2790572732640 := by
  unfold era_f
  rw [jd_t0_eval, df_t0_eval]
  norm_num

theorem era_rev_frac_t0_eval :
    era_rev_frac ⟨2000, 1, 1, 12, 0, 0, 0, none⟩ = 0.2790572732640 := by
  unfold era_rev_frac
  rw [era_f_t0_eval, show ⌊(1.2790572732640 : ℚ)⌋ = 1 from by norm_num [Int.floor_eq_iff]]
  norm_num

/-! ### Claim theorems -/

/-- In the exact-real idealization the pole projection angle is 0 for every
longitude (`cos (±π/2) = 0`, so both atan2 arguments vanish and
`atan2 0 0 = 0`).  This is the behavior the spec mandates and serves as the
contrast for the C1 code bug: the source's floating-point cosine of the pole
latitude is positive, not zero, so the source does not realize this value. -/
theorem exact_model_pole_projection_angle_zero (lon_deg : ℝ) :
    proj_angle_lonlat lon_deg 90 = 0 ∧ proj_angle_lonlat lon_deg (-90) = 0 := by
  have h90 : Real.cos (radians (90 : ℝ)) = 0 := by
    unfold radians
    rw [show (90 : ℝ) * (Real.pi / 180) = Real.pi / 2 by ring, Real.cos_pi_div_two]
  have hm90 : Real.cos (radians (-90 : ℝ)) = 0 := by
    unfold radians
    rw [show (-90 : ℝ) * (Real.pi / 180) = -(Real.pi / 2) by ring, Real.cos_neg,
      Real.cos_pi_div_two]
  constructor
  · unfold proj_angle_lonlat
    rw [h90]
    simp [atan2, norm0to2pi]
  · unfold proj_angle_lonlat
    rw [hm90]
    simp [atan2, norm0to2pi]

/-- C1, code bug: the source has no pole guard, and in IEEE doubles
`math.cos(math.radians(90))` evaluates to 6.123233995736766e-17, which is
positive, not zero.  For every positive value c of that cosine — in particular
the value the source actually computes — the formula of lines 104-113 applied
at latitude 90° returns the normalized longitude, not the claimed constant 0:
π/2 at longitude 90° and 0 at longitude 0°, a longitude-dependent result.
The claim (and the mandate of spec sections 7 and 9) is therefore right about
the intent and the code is wrong at |lat| = 90. -/
theorem C1_pole_float_behavior (c : ℝ) (hc : 0 < c) :
    norm0to2pi (atan2 (c * Real.sin (radians 90)) (c * Real.cos (radians 90))) = Real.pi / 2
    ∧ norm0to2pi (atan2 (c * Real.sin (radians 0)) (c * Real.cos (radians 0))) = 0
    ∧ Real.pi / 2 ≠ 0 := by
  have hr90 : radians (90 : ℝ) = Real.pi / 2 := by
    unfold radians
    ring
  have hr0 : radians (0 : ℝ) = 0 := by
    unfold radians
    ring
  refine ⟨?_, ?_, ne_of_gt (by positivity)⟩
  · rw [atan2_scale hc, hr90, Real.sin_pi_div_two, Real.cos_pi_div_two]
    unfold atan2 norm0to2pi
    rw [show ((0 : ℝ) : ℂ) + ((1 : ℝ) : ℂ) * Complex.I = Complex.I by simp,
      Complex.arg_I, if_neg (not_lt.mpr (le_of_lt (by positivity)))]
  · rw [atan2_scale hc, hr0, Real.sin_zero, Real.cos_zero]
    unfold atan2 norm0to2pi
    rw [show ((1 : ℝ) : ℂ) + ((0 : ℝ) : ℂ) * Complex.I = 1 by simp,
      Complex.arg_one, if_neg (lt_irrefl 0)]

theorem C1_pole_float_behavior_witness :
    norm0to2pi (atan2 ((6.123233995736766e-17 : ℝ) * Real.sin (radians 90))
        ((6.123233995736766e-17 : ℝ) * Real.cos (radians 90))) = Real.pi / 2
    ∧ norm0to2pi (atan2 ((6.123233995736766e-17 : ℝ) * Real.sin (radians 0))
        ((6.123233995736766e-17 : ℝ) * Real.cos (radians 0))) = 0
    ∧ Real.pi / 2 ≠ 0 :=
  C1_pole_float_behavior (6.123233995736766e-17 : ℝ) (by norm_num)

/-- C2: for every timestamp string the reader accepts, the Earth Rotation Angle
computed by era_from_ut1_iso satisfies 0 ≤ ERA < 2π. -/
theorem C2_era_in_range (s : List Char) (e : ℝ)
    (h : era_from_ut1_iso s = some e) : 0 ≤ e ∧ e < 2 * Real.pi := by
  unfold era_from_ut1_iso at h
  cases hp : parse_iso_to_datetime s with
  | none => rw [hp] at h; simp at h
  | some t =>
    rw [hp] at h
    have he : era_from_ut1_dt t = e := by simpa using h
    subst he
    exact ⟨era_from_ut1_dt_nonneg t, era_from_ut1_dt_lt t⟩

theorem C2_era_in_range_witness :
    0 ≤ era_from_ut1_dt ⟨2000, 1, 1, 12, 0, 0, 0, none⟩
    ∧ era_from_ut1_dt ⟨2000, 1, 1, 12, 0, 0, 0, none⟩ < 2 * Real.pi :=
  C2_era_in_range ("2000-01-01T12:00:00".toList) _ (by
    unfold era_from_ut1_iso
    rw [show parse_iso_to_datetime ("2000-01-01T12:00:00".toList)
        = some ⟨2000, 1, 1, 12, 0, 0, 0, none⟩ from by decide]
    rfl)

/-- C4: on the non-polar domain the projection angle does not depend on the
latitude, and it lies in [0, 2π). -/
theorem C4_projection_independent_of_latitude (lon l1 l2 : ℝ)
    (h1 : |l1| < 90) (h2 : |l2| < 90) :
    proj_angle_lonlat lon l1 = proj_angle_lonlat lon l2
    ∧ 0 ≤ proj_angle_lonlat lon l1 ∧ proj_angle_lonlat lon l1 < 2 * Real.pi
    ∧ 0 ≤ proj_angle_lonlat lon l2 ∧ proj_angle_lonlat lon l2 < 2 * Real.pi :=
  ⟨proj_lat_indep h1 h2, (proj_angle_lonlat_range lon l1).1,
   (proj_angle_lonlat_range lon l1).2, (proj_angle_lonlat_range lon l2).1,
   (proj_angle_lonlat_range lon l2).2⟩

theorem C4_projection_independent_of_latitude_witness :
    proj_angle_lonlat 45 10 = proj_angle_lonlat 45 80
    ∧ 0 ≤ proj_angle_lonlat 45 10 ∧ proj_angle_lonlat 45 10 < 2 * Real.pi
    ∧ 0 ≤ proj_angle_lonlat 45 80 ∧ proj_angle_lonlat 45 80 < 2 * Real.pi :=
  C4_projection_independent_of_latitude 45 10 80
    (by rw [abs_of_nonneg (by norm_num : (0:ℝ) ≤ 10)]; norm_num)
    (by rw [abs_of_nonneg (by norm_num : (0:ℝ) ≤ 80)]; norm_num)

/-- C8: every composed result has its radians component in [0, 2π) and its
degrees component equal to the radians component times 180/π, with no
independent renormalization. -/
theorem C8_total_angle_normalized (s : List Char) (lon lat : ℝ) (out : ℝ × ℝ × ℝ × ℝ)
    (h : total_angle_mod s lon lat = some out) :
    0 ≤ out.1 ∧ out.1 < 2 * Real.pi ∧ out.2.1 = out.1 * (180 / Real.pi) := by
  unfold total_angle_mod at h
  cases hp : parse_iso_to_datetime s with
  | none => rw [hp] at h; simp at h
  | some t =>
    rw [hp] at h
    have he : total_angle_mod_dt t lon lat = out := by simpa using h
    subst he
    exact ⟨pymod_nonneg _ two_pi_pos, pymod_lt _ two_pi_pos, rfl⟩

theorem C8_total_angle_normalized_witness :
    0 ≤ (total_angle_mod_dt ⟨2000, 1, 1, 12, 0, 0, 0, none⟩ 39.906217 116.3912757).1
    ∧ (total_angle_mod_dt ⟨2000, 1, 1, 12, 0, 0, 0, none⟩ 39.906217 116.3912757).1 < 2 * Real.pi
    ∧ (total_angle_mod_dt ⟨2000, 1, 1, 12, 0, 0, 0, none⟩ 39.906217 116.3912757).2.1
      = (total_angle_mod_dt ⟨2000, 1, 1, 12, 0, 0, 0, none⟩ 39.906217 116.3912757).1
        * (180 / Real.pi) :=
  C8_total_angle_normalized ("2000-01-01T12:00:00".toList) 39.906217 116.3912757 _ (by
    unfold total_angle_mod
    rw [show parse_iso_to_datetime ("2000-01-01T12:00:00".toList)
        = some ⟨2000, 1, 1, 12, 0, 0, 0, none⟩ from by decide]
    rfl)

/-- C3: the timestamp 2000-01-01T12:00:00 parses, its Julian Date is exactly
2451545.0 (so D = 0), and the ERA it yields is exactly 2π × 0.2790572732640,
the value obtained from the constant term 0.7790572732640 plus the day
fraction 0.5 (exact equality, hence well within 1e-9 radians). -/
theorem C3_j2000_reference_value :
    parse_iso_to_datetime ("2000-01-01T12:00:00".toList) = some ⟨2000, 1, 1, 12, 0, 0, 0, none⟩
    ∧ jd_from_datetime ⟨2000, 1, 1, 12, 0, 0, 0, none⟩ = 2451545.0
    ∧ era_from_ut1_iso ("2000-01-01T12:00:00".toList)
      = some (2 * Real.pi * (0.2790572732640 : ℝ)) := by
  refine ⟨by decide, by rw [jd_t0_eval]; norm_num, ?_⟩
  unfold era_from_ut1_iso
  rw [show parse_iso_to_datetime ("2000-01-01T12:00:00".toList)
      = some ⟨2000, 1, 1, 12, 0, 0, 0, none⟩ from by decide]
  show some (era_from_ut1_dt ⟨2000, 1, 1, 12, 0, 0, 0, none⟩) = _
  rw [era_from_ut1_dt_eq, era_rev_frac_t0_eval]
  norm_num

/-- C6, counterexample: the source computes the two product terms with Python
int(), which truncates toward zero; on a negative working year this differs
from the floor semantics the claim asserts, so the computed JD does not equal
the Meeus floor formula there. -/
theorem C6_counterexample :
    jd_from_datetime ⟨-4716, 1, 1, 0, 0, 0, 0, none⟩
      ≠ jd_meeus ⟨-4716, 1, 1, 0, 0, 0, 0, none⟩ := by
  have hdf : day_fraction ⟨-4716, 1, 1, 0, 0, 0, 0, none⟩ = 0 := by
    unfold day_fraction
    norm_num
  have h1 : jd_from_datetime ⟨-4716, 1, 1, 0, 0, 0, 0, none⟩ = -1422.5 := by
    unfold jd_from_datetime
    rw [show jd_working_year ⟨-4716, 1, 1, 0, 0, 0, 0, none⟩ = -4717 from by decide,
      show jd_working_month ⟨-4716, 1, 1, 0, 0, 0, 0, none⟩ = 13 from by decide,
      show jd_B ⟨-4716, 1, 1, 0, 0, 0, 0, none⟩ = 38 from by decide,
      pyint_eval_neg (n := -365) (by push_cast; norm_num) (by push_cast; norm_num)
        (by push_cast; norm_num),
      pyint_eval_nonneg (n := 428) (by norm_num) (by push_cast; norm_num)
        (by push_cast; norm_num), hdf]
    push_cast
    norm_num
  have h2 : jd_meeus ⟨-4716, 1, 1, 0, 0, 0, 0, none⟩ = -1423.5 := by
    unfold jd_meeus
    rw [show jd_working_year ⟨-4716, 1, 1, 0, 0, 0, 0, none⟩ = -4717 from by decide,
      show jd_working_month ⟨-4716, 1, 1, 0, 0, 0, 0, none⟩ = 13 from by decide,
      show jd_B ⟨-4716, 1, 1, 0, 0, 0, 0, none⟩ = 38 from by decide,
      show ⌊(365.25 : ℚ) * (((-4717 : ℤ) : ℚ) + 4716)⌋ = -366 from by
        push_cast; norm_num [Int.floor_eq_iff],
      show ⌊(30.6001 : ℚ) * (((13 : ℤ) : ℚ) + 1)⌋ = 428 from by
        push_cast; norm_num [Int.floor_eq_iff], hdf]
    push_cast
    norm_num
  rw [h1, h2]
  norm_num

/-- C6, amended: A and B do use floor division, and the two int() product
terms coincide with floor whenever the working year is nonnegative; hence for
every CivilTimestamp with year ≥ 1 and a valid month — in particular every
timestamp the reader can produce — the computed JD equals the Meeus floor
formula exactly. -/
theorem C6_jd_matches_meeus_on_parser_domain (t : CivilTimestamp)
    (hy : 1 ≤ t.year) (hm1 : 1 ≤ t.month) (hm2 : t.month ≤ 12) :
    jd_from_datetime t = jd_meeus t := by
  have hwy : 0 ≤ jd_working_year t := by
    unfold jd_working_year
    split_ifs <;> omega
  have hwm : 3 ≤ jd_working_month t := by
    unfold jd_working_month
    split_ifs <;> omega
  have h1 : 0 ≤ (365.25 : ℚ) * ((jd_working_year t : ℚ) + 4716) := by
    have h : (0 : ℚ) ≤ (jd_working_year t : ℚ) := by exact_mod_cast hwy
    nlinarith
  have h2 : 0 ≤ (30.6001 : ℚ) * ((jd_working_month t : ℚ) + 1) := by
    have h : (3 : ℚ) ≤ (jd_working_month t : ℚ) := by exact_mod_cast hwm
    nlinarith
  unfold jd_from_datetime jd_meeus
  rw [pyint_eq_floor h1, pyint_eq_floor h2]

theorem C6_jd_matches_meeus_on_parser_domain_witness :
    jd_from_datetime ⟨2000, 1, 1, 12, 0, 0, 0, none⟩
      = jd_meeus ⟨2000, 1, 1, 12, 0, 0, 0, none⟩ :=
  C6_jd_matches_meeus_on_parser_domain ⟨2000, 1, 1, 12, 0, 0, 0, none⟩
    (by decide) (by decide) (by decide)

/-- C5: in a non-leap year the Julian Dates of YYYY-03-01T00:00:00 and
YYYY-02-28T23:59:59.999999 differ by exactly one microsecond expressed in days
(1/86400000000, i.e. the one-microsecond civil gap converted at 1 day per
86400 seconds), and the month ≤ 2 calendar-arithmetic branch is taken for the
February timestamp and not for the March one. -/
theorem C5_feb_mar_boundary (Y : ℤ) (hY : 1 ≤ Y) (hnl : isLeapYear Y = false) :
    jd_from_datetime ⟨Y, 3, 1, 0, 0, 0, 0, none⟩
      - jd_from_datetime ⟨Y, 2, 28, 23, 59, 59, 999999, none⟩ = 1 / 86400000000
    ∧ (⟨Y, 2, 28, 23, 59, 59, 999999, none⟩ : CivilTimestamp).month ≤ 2
    ∧ ¬ ((⟨Y, 3, 1, 0, 0, 0, 0, none⟩ : CivilTimestamp).month ≤ 2) := by
  refine ⟨?_, by norm_num, by norm_num⟩
  have hdf3 : day_fraction ⟨Y, 3, 1, 0, 0, 0, 0, none⟩ = 0 := by
    unfold day_fraction
    norm_num
  have hdf2 : day_fraction ⟨Y, 2, 28, 23, 59, 59, 999999, none⟩
      = 86399999999 / 86400000000 := by
    unfold day_fraction
    norm_num
  have hwy3 : jd_working_year ⟨Y, 3, 1, 0, 0, 0, 0, none⟩ = Y := by
    unfold jd_working_year
    norm_num
  have hwy2 : jd_working_year ⟨Y, 2, 28, 23, 59, 59, 999999, none⟩ = Y - 1 := by
    unfold jd_working_year
    norm_num
  have hwm3 : jd_working_month ⟨Y, 3, 1, 0, 0, 0, 0, none⟩ = 3 := by
    unfold jd_working_month
    norm_num
  have hwm2 : jd_working_month ⟨Y, 2, 28, 23, 59, 59, 999999, none⟩ = 14 := by
    unfold jd_working_month
    norm_num
  have hB3 : jd_B ⟨Y, 3, 1, 0, 0, 0, 0, none⟩ = 2 - Y / 100 + Y / 100 / 4 := by
    unfold jd_B jd_A
    rw [hwy3, Int.fdiv_eq_ediv _ (by norm_num : (0:ℤ) ≤ 100),
      Int.fdiv_eq_ediv _ (by norm_num : (0:ℤ) ≤ 4)]
  have hB2 : jd_B ⟨Y, 2, 28, 23, 59, 59, 999999, none⟩
      = 2 - (Y - 1) / 100 + (Y - 1) / 100 / 4 := by
    unfold jd_B jd_A
    rw [hwy2, Int.fdiv_eq_ediv _ (by norm_num : (0:ℤ) ≤ 100),
      Int.fdiv_eq_ediv _ (by norm_num : (0:ℤ) ≤ 4)]
  have hYQ : (1 : ℚ) ≤ (Y : ℚ) := by exact_mod_cast hY
  have hp3 : pyint ((365.25 : ℚ) * ((Y : ℚ) + 4716)) = 1461 * (Y + 4716) / 4 := by
    rw [pyint_eq_floor (by nlinarith),
      show (365.25 : ℚ) * ((Y : ℚ) + 4716)
        = ((1461 * (Y + 4716) : ℤ) : ℚ) / ((4 : ℕ) : ℚ) from by push_cast; ring,
      Rat.floor_intCast_div_natCast]
    norm_num
  have hp2 : pyint ((365.25 : ℚ) * (((Y - 1 : ℤ) : ℚ) + 4716)) = 1461 * (Y + 4715) / 4 := by
    rw [pyint_eq_floor (by push_cast; nlinarith),
      show (365.25 : ℚ) * (((Y - 1 : ℤ) : ℚ) + 4716)
        = ((1461 * (Y + 4715) : ℤ) : ℚ) / ((4 : ℕ) : ℚ) from by push_cast; ring,
      Rat.floor_intCast_div_natCast]
    norm_num
  have hq3 : pyint ((30.6001 : ℚ) * (((3 : ℤ) : ℚ) + 1)) = 122 :=
    pyint_eval_nonneg (by norm_num) (by push_cast; norm_num) (by push_cast; norm_num)
  have hq2 : pyint ((30.6001 : ℚ) * (((14 : ℤ) : ℚ) + 1)) = 459 :=
    pyint_eval_nonneg (by norm_num) (by push_cast; norm_num) (by push_cast; norm_num)
  have hnl2 : ¬(Y % 4 = 0 ∧ (¬ Y % 100 = 0 ∨ Y % 400 = 0)) := by
    simp [isLeapYear] at hnl
    omega
  have hZ : 1461 * (Y + 4716) / 4 - 1461 * (Y + 4715) / 4
      + ((2 - Y / 100 + Y / 100 / 4) - (2 - (Y - 1) / 100 + (Y - 1) / 100 / 4)) = 365 := by
    have e2 : 1461 * (Y + 4716) / 4 = 365 * (Y + 4716) + (Y + 4716) / 4 := by omega
    have e3 : 1461 * (Y + 4715) / 4 = 365 * (Y + 4715) + (Y + 4715) / 4 := by omega
    omega
  have hZQ : ((1461 * (Y + 4716) / 4 : ℤ) : ℚ) - ((1461 * (Y + 4715) / 4 : ℤ) : ℚ)
      + (((2 - Y / 100 + Y / 100 / 4 : ℤ) : ℚ)
        - ((2 - (Y - 1) / 100 + (Y - 1) / 100 / 4 : ℤ) : ℚ)) = 365 := by
    exact_mod_cast hZ
  unfold jd_from_datetime
  rw [hwy3, hwy2, hwm3, hwm2, hB3, hB2, hdf3, hdf2, hp3, hp2, hq3, hq2]
  push_cast at hZQ ⊢
  linarith

theorem C5_feb_mar_boundary_witness :
    (jd_from_datetime ⟨2001, 3, 1, 0, 0, 0, 0, none⟩
      - jd_from_datetime ⟨2001, 2, 28, 23, 59, 59, 999999, none⟩ = 1 / 86400000000
    ∧ (⟨2001, 2, 28, 23, 59, 59, 999999, none⟩ : CivilTimestamp).month ≤ 2
    ∧ ¬ ((⟨2001, 3, 1, 0, 0, 0, 0, none⟩ : CivilTimestamp).month ≤ 2)) :=
  C5_feb_mar_boundary 2001 (by norm_num) (by decide)

/-- C7: for timestamps one UT1 day apart (same time-of-day fields, Julian Date
larger by exactly 1), the ERA advances by 2π × 0.00273781191135448 modulo a
full turn. -/
theorem C7_era_daily_advance (t t' : CivilTimestamp)
    (hjd : jd_from_datetime t' = jd_from_datetime t + 1)
    (hdf : day_fraction t' = day_fraction t) :
    ∃ k : ℤ, era_from_ut1_dt t' - era_from_ut1_dt t
      = 2 * Real.pi * (0.00273781191135448 : ℝ) + 2 * Real.pi * (k : ℝ) := by
  have hf : era_f t' = era_f t + 0.00273781191135448 := by
    unfold era_f
    rw [hjd, hdf]
    ring
  refine ⟨⌊era_f t⌋ - ⌊era_f t'⌋, ?_⟩
  rw [era_from_ut1_dt_eq, era_from_ut1_dt_eq]
  have hq : era_rev_frac t' = era_rev_frac t + 0.00273781191135448
      + ((⌊era_f t⌋ - ⌊era_f t'⌋ : ℤ) : ℚ) := by
    unfold era_rev_frac
    rw [hf]
    push_cast
    ring
  rw [hq]
  push_cast
  ring

theorem C7_era_daily_advance_witness :
    ∃ k : ℤ, era_from_ut1_dt ⟨2000, 1, 2, 12, 0, 0, 0, none⟩
      - era_from_ut1_dt ⟨2000, 1, 1, 12, 0, 0, 0, none⟩
      = 2 * Real.pi * (0.00273781191135448 : ℝ) + 2 * Real.pi * (k : ℝ) :=
  C7_era_daily_advance ⟨2000, 1, 1, 12, 0, 0, 0, none⟩ ⟨2000, 1, 2, 12, 0, 0, 0, none⟩
    (by rw [jd_t1_eval, jd_t0_eval]; norm_num) (by rw [df_t1_eval, df_t0_eval])

/-- C9, counterexample: the claim says parsing fails exactly when the input
matches neither of the two claimed date-and-time layouts, but the date-only
string 2025-08-17 matches neither layout and still parses successfully
(fromisoformat also accepts date-only strings). -/
theorem C9_counterexample :
    ¬ ((parse_iso_to_datetime ("2025-08-17".toList) = none)
      ↔ specLayoutAccepts ("2025-08-17".toList) = false) := by decide

/-- C9, amended: the reader fails with its single error exactly when, after the
whitespace strip and the lexical trailing-Z strip, the input is accepted by
neither the fromisoformat grammar (which also admits date-only strings, an
arbitrary single separator character, and a numeric UTC-offset suffix) nor the
fixed YYYY-MM-DDTHH:MM:SS format; on success the result is returned unmodified
from whichever of the two attempts succeeded first, with no partial result and
no timezone conversion. -/
theorem C9_parse_error_iff_both_formats_fail (s : List Char) :
    (parse_iso_to_datetime s = none
      ↔ (fromisoformat (stripZ (pyStrip s)) = none
        ∧ strptimeYmdHMS (stripZ (pyStrip s)) = none))
    ∧ (∀ t : CivilTimestamp, parse_iso_to_datetime s = some t
      → fromisoformat (stripZ (pyStrip s)) = some t
        ∨ strptimeYmdHMS (stripZ (pyStrip s)) = some t) := by
  unfold parse_iso_to_datetime
  cases h : fromisoformat (stripZ (pyStrip s)) with
  | some d => exact ⟨by simp, fun t ht => Or.inl ht⟩
  | none => exact ⟨by simp, fun t ht => Or.inr ht⟩

theorem C9_parse_error_iff_both_formats_fail_witness :
    fromisoformat (stripZ (pyStrip ("2025-8-17T12:00:00".toList)))
      = some ⟨2025, 8, 17, 12, 0, 0, 0, none⟩
    ∨ strptimeYmdHMS (stripZ (pyStrip ("2025-8-17T12:00:00".toList)))
      = some ⟨2025, 8, 17, 12, 0, 0, 0, none⟩ :=
  (C9_parse_error_iff_both_formats_fail ("2025-8-17T12:00:00".toList)).2
    ⟨2025, 8, 17, 12, 0, 0, 0, none⟩ (by decide)

/-- C10: the reader also accepts timestamp strings with an explicit numeric
UTC-offset suffix; the offset is parsed but never read by the pipeline, so the
ERA and the composed angle computed from such a string equal those computed
from the same string with the offset removed. -/
theorem C10_utc_offset_accepted_and_ignored :
    parse_iso_to_datetime ("2025-08-17T12:00:00+08:00".toList)
      = some ⟨2025, 8, 17, 12, 0, 0, 0, some 28800⟩
    ∧ parse_iso_to_datetime ("2025-08-17T12:00:00".toList)
      = some ⟨2025, 8, 17, 12, 0, 0, 0, none⟩
    ∧ (∀ t : CivilTimestamp, ∀ off : Option ℤ, ∀ lon lat : ℝ,
        era_from_ut1_dt ⟨t.year, t.month, t.day, t.hour, t.minute, t.second, t.microsecond, off⟩
          = era_from_ut1_dt t
        ∧ total_angle_mod_dt
            ⟨t.year, t.month, t.day, t.hour, t.minute, t.second, t.microsecond, off⟩ lon lat
          = total_angle_mod_dt t lon lat)
    ∧ era_from_ut1_iso ("2025-08-17T12:00:00+08:00".toList)
      = era_from_ut1_iso ("2025-08-17T12:00:00".toList)
    ∧ (∀ lon lat : ℝ, total_angle_mod ("2025-08-17T12:00:00+08:00".toList) lon lat
      = total_angle_mod ("2025-08-17T12:00:00".toList) lon lat) := by
  refine ⟨by decide, by decide, fun t off lon lat => ⟨rfl, rfl⟩, ?_, ?_⟩
  · unfold era_from_ut1_iso
    rw [show parse_iso_to_datetime ("2025-08-17T12:00:00+08:00".toList)
        = some ⟨2025, 8, 17, 12, 0, 0, 0, some 28800⟩ from by decide,
      show parse_iso_to_datetime ("2025-08-17T12:00:00".toList)
        = some ⟨2025, 8, 17, 12, 0, 0, 0, none⟩ from by decide]
    rfl
  · intro lon lat
    unfold total_angle_mod
    rw [show parse_iso_to_datetime ("2025-08-17T12:00:00+08:00".toList)
        = some ⟨2025, 8, 17, 12, 0, 0, 0, some 28800⟩ from by decide,
      show parse_iso_to_datetime ("2025-08-17T12:00:00".toList)
        = some ⟨2025, 8, 17, 12, 0, 0, 0, none⟩ from by decide]
    rfl

end UT1LongLatphi
